import Mathlib

/-!
Verification of the EvalPro chess-analyzer core: a shallow embedding of the
cache-first analysis scheduling and move-classification pipeline
(`move_classifier.py`, `context_builders.py`, `analysis_provider.py`,
`chess_utils.py`, `config/settings.py`), with theorems settling the spec's
claims about it.

Python floats are modelled as exact rationals (`ℚ`); all values handled by the
classifier are small decimals, for which this model is faithful.  Python dicts
carrying analysis results are modelled as association lists; `None` is `Option`.
-/

namespace EvalPro

/-- python-chess colors: `chess.WHITE` is `True`, `chess.BLACK` is `False`. -/
abbrev Color := Bool

def WHITE : Color := true

def BLACK : Color := false

/-- python-chess piece types used by `PIECE_VALUES` in `chess_utils.py`. -/
inductive PieceType where
  | pawn | knight | bishop | rook | queen | king
deriving DecidableEq

/-- A piece as seen through `board.piece_map().values()`: type and color. -/
structure Piece where
  pieceType : PieceType
  color : Color
deriving DecidableEq

/-- A board, as far as `get_material_diff` observes it: the multiset of pieces
on it, modelled as the list `board.piece_map().values()`. -/
abbrev Board := List Piece

/-- `PIECE_VALUES` from `chess_utils.py`. -/
def PIECE_VALUES : PieceType → ℚ
  | .pawn => 1
  | .knight => 3
  | .bishop => 3.2
  | .rook => 5
  | .queen => 9
  | .king => 0

/-- An ASCII lowercasing, used to instantiate the abstract `lower` collaborator
of `build_game_summary` on concrete inputs.  (Python's `str.lower` itself is
Unicode-aware runtime functionality the repository does not implement, so the
summary builder is stated over an arbitrary lowercasing function.) -/
def pyLower (s : String) : String := ⟨s.data.map Char.toLower⟩

/-- Model of Python's `s.split("(")[0]`: the prefix before the first `'('`
(the whole string when there is none). -/
def pySplitParenHead (s : String) : String := ⟨s.data.takeWhile (fun c => c ≠ '(')⟩

/-- Model of Python's `str.strip`: drop whitespace from both ends. -/
def pyStrip (s : String) : String :=
  ⟨((s.data.dropWhile Char.isWhitespace).reverse.dropWhile Char.isWhitespace).reverse⟩

/-- Model of Python's `round` to an integer: round half to even (banker's
rounding), as used by `round(x, 2)` and `format(x, '.0f')`. -/
def roundHalfEven (x : ℚ) : ℤ :=
  let f : ℤ := x.num.fdiv (x.den : ℤ)
  let frac : ℚ := x - (f : ℚ)
  if frac < 1/2 then f
  else if 1/2 < frac then f + 1
  else if f % 2 = 0 then f else f + 1

/-- Model of Python's `round(x, 2)` from the tail of `get_material_diff`. -/
def pyRound2 (x : ℚ) : ℚ := (roundHalfEven (100 * x) : ℚ) / 100

/-- Model of Python's `f"{x:.0f}"` formatting used for the CPL suffix text. -/
def pyFormatF0 (x : ℚ) : String := toString (roundHalfEven x)

/-- `get_material_diff` from `chess_utils.py`: signed sum of piece values from
the perspective color, rounded to two decimals. -/
def get_material_diff (board : Board) (perspective_color : Color) : ℚ :=
  pyRound2 (board.foldl
    (fun acc piece =>
      if piece.color = perspective_color then acc + PIECE_VALUES piece.pieceType
      else acc - PIECE_VALUES piece.pieceType)
    0)

-- ### settings.py constants

def MATE_SCORE_EQUIVALENT_CP : ℚ := 30000

def CPL_INDIVIDUAL_EVAL_CAP_CP : ℚ := 1000

def ACPL_MOVE_CPL_CAP_CP : ℚ := 1000

def MOVE_CLASSIFICATION_THRESHOLDS : List (String × ℚ) :=
  [("Best", 5), ("Good", 40), ("OK", 70), ("Dubious", 90),
   ("Inaccuracy", 180), ("Mistake", 300)]

/-- `BrilliantMoveCriteria` from `types.py`. -/
structure BrilliantMoveCriteria where
  max_cpl : ℚ
  eval_drop_leniency_cp : ℚ
  max_eval_before_move_cp : ℚ
  min_sacrifice_net_material_pawns : ℚ
deriving DecidableEq

/-- `GreatMoveCriteria` from `types.py`. -/
structure GreatMoveCriteria where
  min_uniqueness_gain_cp : ℚ
deriving DecidableEq

/-- `BRILLIANT_CRITERIA` from `settings.py`. -/
def BRILLIANT_CRITERIA : BrilliantMoveCriteria := ⟨20, 15, 350, 2.5⟩

/-- `GREAT_CRITERIA` from `settings.py`. -/
def GREAT_CRITERIA : GreatMoveCriteria := ⟨120⟩

-- ### Engine line and score normalization (context_builders.py)

/-- One engine line dict as consumed by `get_score_from_line`.  The `mate` and
`cp` fields model `line.get("Mate")` / `line.get("Centipawn")` fed through
`int(...)` / `float(...)`: `none` is an absent (or null) key, `some none` is a
present value whose conversion raises, `some (some v)` is a convertible value. -/
structure EngineLine where
  move : Option String
  mate : Option (Option ℤ)
  cp : Option (Option ℚ)
deriving DecidableEq

/-- A position's evaluation set: the ranked list of engine lines. -/
abbrev EvalSet := List EngineLine

/-- `get_score_from_line` from `context_builders.py`.  Returns
`(score, is_mate, mate_moves)` from the requested perspective; engine fields are
white-relative, so the black perspective negates. -/
def get_score_from_line (line : Option EngineLine) (perspective : Color) :
    Option ℚ × Bool × Option ℤ :=
  match line with
  | none => (none, false, none)
  | some l =>
    let parsed : Option (ℚ × Bool × Option ℤ) :=
      match l.mate, l.cp with
      | some (some m), _ =>
        if m = 0 then some (0, false, some 0)
        else if 0 < m then some (MATE_SCORE_EQUIVALENT_CP - (m : ℚ), true, some m)
        else some (-MATE_SCORE_EQUIVALENT_CP + (-(m : ℚ)), true, some m)
      | some none, _ => none
      | none, some (some q) => some (q, false, none)
      | none, _ => none
    match parsed with
    | none => (none, false, none)
    | some (s, im, md) =>
      if perspective = WHITE then (some s, im, md)
      else (some (-s), im, if im && md.isSome then md.map Neg.neg else none)

-- ### MoveAnalysisContext and the classifier (move_classifier.py)

/-- `MoveAnalysisContext` from `types.py` (evals already from the mover's
perspective, as built by `build_move_analysis_context`). -/
structure MoveAnalysisContext where
  eval_best_move : Option ℚ
  is_mate_best_move : Bool
  eval_second_best_move : Option ℚ
  is_mate_second_best_move : Bool
  eval_player_move : Option ℚ
  is_mate_player_move : Bool
  eval_before_move : Option ℚ
  is_mate_before_move : Bool
  engine_top_lines : List EngineLine
  player_move_uci : String
  board_before_move : Board
  board_after_move : Board
  player_color : Color
  engine_multipv : ℤ
  brilliant_criteria : BrilliantMoveCriteria
  great_criteria : GreatMoveCriteria
deriving DecidableEq

/-- `ClassificationResult` from `types.py`. -/
structure ClassificationResult where
  classification_text : String
  cpl : ℚ
  raw_cpl : ℚ
  is_brilliant : Bool
  is_great : Bool
  is_engine_top_choice : Bool
  is_engine_top_n_choice : Bool
deriving DecidableEq

/-- A Python-level error surfaced by the embedded code. -/
inductive PyErr where
  | typeError
deriving DecidableEq

/-- Outcome of running a Python function: a returned value or a raised error. -/
inductive PyOutcome (α : Type) where
  | ok (val : α)
  | raises (err : PyErr)
deriving DecidableEq

/-- `_cap_score` from `move_classifier.py`: clamp a non-mate score to
±`CPL_INDIVIDUAL_EVAL_CAP_CP`, leave mate scores untouched, map absent to 0. -/
def _cap_score (score_cp : Option ℚ) (is_mate : Bool) : ℚ :=
  match score_cp with
  | none => 0
  | some s =>
    if is_mate then s
    else min CPL_INDIVIDUAL_EVAL_CAP_CP (max (-CPL_INDIVIDUAL_EVAL_CAP_CP) s)

/-- The `raw_cpl` pre-calculation in `classify_move`. -/
def raw_cpl_of (ctx : MoveAnalysisContext) : ℚ :=
  _cap_score ctx.eval_best_move ctx.is_mate_best_move
    - _cap_score ctx.eval_player_move ctx.is_mate_player_move

/-- The `is_top_choice` pre-calculation in `classify_move`:
`bool(lines and uci == lines[0].get('Move'))`. -/
def is_top_choice_of (ctx : MoveAnalysisContext) : Bool :=
  match ctx.engine_top_lines with
  | [] => false
  | l0 :: _ => l0.move == some ctx.player_move_uci

/-- The `is_top_n_choice` pre-calculation in `classify_move`. -/
def is_top_n_choice_of (ctx : MoveAnalysisContext) : Bool :=
  is_top_choice_of ctx
    || ctx.engine_top_lines.any fun l => l.move == some ctx.player_move_uci

/-- `MoveClassifier._is_significant_piece_sacrifice`. -/
def _is_significant_piece_sacrifice (ctx : MoveAnalysisContext) : Bool :=
  let diff_before := get_material_diff ctx.board_before_move ctx.player_color
  let diff_after := get_material_diff ctx.board_after_move ctx.player_color
  let net_material_loss := diff_before - diff_after
  decide (ctx.brilliant_criteria.min_sacrifice_net_material_pawns ≤ net_material_loss)

/-- `MoveClassifier._check_for_brilliant`. -/
def _check_for_brilliant (ctx : MoveAnalysisContext) (raw_cpl : ℚ) :
    Option ClassificationResult :=
  let criteria := ctx.brilliant_criteria
  match ctx.eval_player_move, ctx.eval_before_move with
  | some eval_player, some eval_before =>
    if criteria.max_cpl < raw_cpl then none
    else if ctx.is_mate_before_move ∧ 0 < eval_before then none
    else if ¬ctx.is_mate_before_move ∧ criteria.max_eval_before_move_cp < eval_before then
      none
    else if criteria.eval_drop_leniency_cp < eval_before - eval_player then none
    else if ¬_is_significant_piece_sacrifice ctx then none
    else some ⟨"Brilliant ✨", 0, raw_cpl, true, false, false, false⟩
  | _, _ => none

/-- `MoveClassifier._check_for_great`. -/
def _check_for_great (ctx : MoveAnalysisContext) (is_top_choice : Bool) :
    Option ClassificationResult :=
  if ¬is_top_choice ∨ ctx.engine_multipv < 2 then none
  else
    match ctx.eval_best_move, ctx.eval_second_best_move with
    | some eval_best, some eval_second =>
      if ctx.is_mate_best_move ∨ ctx.is_mate_second_best_move then none
      else if eval_best - eval_second < ctx.great_criteria.min_uniqueness_gain_cp then
        none
      else some ⟨"Great Move !", 0, 0, false, true, true, true⟩
    | _, _ => none

/-- The threshold walk inside `MoveClassifier._get_standard_classification`. -/
def classificationLoop (cpl : ℚ) : List (String × ℚ) → String
  | [] => "Blunder"
  | (name, threshold) :: rest =>
    if cpl ≤ threshold then name else classificationLoop cpl rest

/-- `MoveClassifier._get_standard_classification`. -/
def _get_standard_classification (cpl : ℚ) : String :=
  classificationLoop cpl MOVE_CLASSIFICATION_THRESHOLDS

/-- `MoveClassifier.classify_move`.  The Brilliant branch of the source runs
`brilliant_result.__class__(**brilliant_result.__dict__, is_engine_top_choice=...,
is_engine_top_n_choice=...)`; the dataclass `__dict__` already contains both
keywords, so that call raises `TypeError` ("got multiple values for keyword
argument"), which this embedding surfaces as `.raises .typeError`. -/
def classify_move (ctx : MoveAnalysisContext) : PyOutcome ClassificationResult :=
  if ctx.eval_best_move.isNone || ctx.eval_player_move.isNone then
    .ok ⟨"Unavailable (eval error)", 0, 0, false, false, false, false⟩
  else
    let raw_cpl := raw_cpl_of ctx
    let cpl_for_metrics := min ACPL_MOVE_CPL_CAP_CP (max 0 raw_cpl)
    let is_top_choice := is_top_choice_of ctx
    let is_top_n_choice := is_top_n_choice_of ctx
    match _check_for_brilliant ctx raw_cpl with
    | some _ => .raises .typeError
    | none =>
      match _check_for_great ctx is_top_choice with
      | some great_result => .ok great_result
      | none =>
        let name := _get_standard_classification cpl_for_metrics
        let text :=
          if name = "Best" then name
          else if name = "Blunder" then
            "Blunder !!! (CPL: " ++ pyFormatF0 cpl_for_metrics ++ ")"
          else name ++ " (CPL: " ++ pyFormatF0 cpl_for_metrics ++ ")"
        .ok ⟨text, cpl_for_metrics, raw_cpl, false, false, is_top_choice,
             is_top_n_choice⟩

-- ### AnalysisProvider (analysis_provider.py) and its collaborators

/-- `DBManager.get_cached_analyses_batch` (db_manager.py), abstracted over the
cache contents under the active key parameters: the returned dict maps each
requested FEN found in the cache to its stored result; FENs not found are
absent. -/
def get_cached_analyses_batch (cacheGet : String → Option EvalSet)
    (fens : List String) : List (String × EvalSet) :=
  fens.filterMap fun fen => (cacheGet fen).map fun v => (fen, v)

/-- `StockfishController.analyze_fens_batch` (stockfish_controller.py),
abstracted over the engine oracles `is_fen_valid` and `get_top_moves`: each FEN
maps to `none` when invalid (skipped with a warning) and to its top-move list
otherwise.  The engine-fault abort and the cooperative shutdown signal are out
of the modelled claims' scope. -/
def analyze_fens_batch (is_fen_valid : String → Bool)
    (get_top_moves : String → EvalSet) (fens : List String) :
    List (String × Option EvalSet) :=
  fens.map fun fen => (fen, if is_fen_valid fen then some (get_top_moves fen) else none)

/-- The observable outcome of `AnalysisProvider.get_analyses_for_game`: the
merged analyses dict, the two counters, and the entries handed to
`store_analyses_batch` (one batch write). -/
structure ProviderOutcome where
  analyses : List (String × Option EvalSet)
  cache_hits : ℕ
  engine_runs : ℕ
  written : List (String × EvalSet)
deriving DecidableEq

/-- `AnalysisProvider.get_analyses_for_game` (steps 2–5; step 1's planning is
`_get_required_fens`, taken here as the `required_fens` input).  Cache entries
enter the merged dict wrapped in `some`; `dict.update(newly_analyzed)` is an
append since cache hits and misses are disjoint; `entries_to_cache` keeps
exactly the non-`None` new results. -/
def get_analyses_for_game (cacheGet : String → Option EvalSet)
    (is_fen_valid : String → Bool) (get_top_moves : String → EvalSet)
    (required_fens : List String) : ProviderOutcome :=
  let cached_analyses := get_cached_analyses_batch cacheGet required_fens
  let all_analyses : List (String × Option EvalSet) :=
    cached_analyses.map fun p => (p.1, some p.2)
  let fens_to_analyze :=
    required_fens.filter fun fen => (cached_analyses.lookup fen).isNone
  let newly_analyzed := analyze_fens_batch is_fen_valid get_top_moves fens_to_analyze
  let entries_to_cache :=
    newly_analyzed.filterMap fun p => p.2.map fun v => (p.1, v)
  ⟨all_analyses ++ newly_analyzed, cached_analyses.length, fens_to_analyze.length,
   entries_to_cache⟩

-- ### PositionPlanner (`AnalysisProvider._get_required_fens`)

/-- The mainline loop of `_get_required_fens`: before each move add the
current position's FEN, push the move, add the new position's FEN.  The board
and move types are abstract (`python-chess` is an external collaborator); only
`fenOf` and `push` are observed. -/
def requiredFensLoop {B M : Type} (fenOf : B → String) (push : B → M → B) :
    B → List M → Finset String
  | _, [] => ∅
  | b, m :: rest =>
    insert (fenOf b)
      (insert (fenOf (push b m)) (requiredFensLoop fenOf push (push b m) rest))

/-- `AnalysisProvider._get_required_fens`: the starting position's FEN plus the
loop over the mainline moves. -/
def _get_required_fens {B M : Type} (fenOf : B → String) (push : B → M → B)
    (b0 : B) (moves : List M) : Finset String :=
  insert (fenOf b0) (requiredFensLoop fenOf push b0 moves)

/-- The board reached after the first `i` moves of the game. -/
def boardAt {B M : Type} (push : B → M → B) (b0 : B) (moves : List M) (i : ℕ) : B :=
  (moves.take i).foldl push b0

-- ### GameSummary building (context_builders.py)

/-- The game headers `build_game_summary` reads: the `White` and `Black` names
(with the `""` default of `headers.get`). -/
structure GameHeaders where
  white : String
  black : String
deriving DecidableEq

/-- `GameSummary` from `types.py`; the `Counter` of simplified classification
names is modelled as a multiset. -/
structure GameSummary where
  game_id : String
  analyzed_player_name : String
  player_color_str : String
  player_cpls : List ℚ
  move_classification_counts : Multiset String
  engine_top1_match_count : ℕ
  engine_topN_match_count : ℕ
  pgn_headers : GameHeaders
deriving DecidableEq

/-- The simplification `r.classification_text.split("(")[0].strip()` used when
tallying labels. -/
def simplifyLabel (r : ClassificationResult) : String :=
  pyStrip (pySplitParenHead r.classification_text)

/-- `build_game_summary` from `context_builders.py`, abstracted over the
Python runtime's Unicode `str.lower` (the `lower` parameter), which the
repository does not implement.  `if not target_player` is Python truthiness:
both `None` and the empty string bail out. -/
def build_game_summary (lower : String → String) (headers : GameHeaders)
    (game_id : String) (target_player : Option String)
    (move_results : List ClassificationResult) : Option GameSummary :=
  match target_player with
  | none => none
  | some tp =>
    if tp = "" then none
    else
      let white_player := headers.white
      let black_player := headers.black
      let is_white_targeted := lower tp == lower white_player
      let is_black_targeted := lower tp == lower black_player
      if ¬(is_white_targeted ∨ is_black_targeted) then none
      else
        let player_results :=
          (move_results.enum.filter fun p =>
            (is_white_targeted && decide (p.1 % 2 = 0))
              || (is_black_targeted && decide (p.1 % 2 ≠ 0))).map Prod.snd
        if player_results = [] then none
        else
          some ⟨game_id,
                if is_white_targeted then white_player else black_player,
                if is_white_targeted then "White" else "Black",
                player_results.map (fun r => r.cpl),
                (player_results.map simplifyLabel : List String),
                (player_results.filter fun r => r.is_engine_top_choice).length,
                (player_results.filter fun r => r.is_engine_top_n_choice).length,
                headers⟩

/-- The even-indexed plies of a result list (the White-targeted selection). -/
def evenPlies (rs : List ClassificationResult) : List ClassificationResult :=
  (rs.enum.filter fun p => p.1 % 2 = 0).map Prod.snd

/-- The odd-indexed plies of a result list (the Black-targeted selection). -/
def oddPlies (rs : List ClassificationResult) : List ClassificationResult :=
  (rs.enum.filter fun p => p.1 % 2 ≠ 0).map Prod.snd

-- ### Concrete inputs used by witnesses and counterexamples

/-- A neutral context: no evaluations, no lines, empty boards. -/
def baseCtx : MoveAnalysisContext :=
  ⟨none, false, none, false, none, false, none, false, [], "", [], [], true, 1,
   BRILLIANT_CRITERIA, GREAT_CRITERIA⟩

/-- A context with the best-move evaluation missing (stage-1 guard fires). -/
def ctxUnavailable : MoveAnalysisContext :=
  { baseCtx with eval_player_move := some 50 }

/-- A context satisfying every Brilliant condition: equal evals (raw CPL 0),
position not already won, and a full queen sacrificed. -/
def ctxBrilliant : MoveAnalysisContext :=
  { baseCtx with
      eval_best_move := some 100
      eval_player_move := some 100
      eval_before_move := some 100
      board_before_move := [⟨PieceType.queen, true⟩]
      board_after_move := [] }

/-- A context satisfying every Brilliant condition and every Great condition
simultaneously (played move is the unique engine choice by 150 cp, and a queen
is sacrificed). -/
def ctxBrilliantGreat : MoveAnalysisContext :=
  { baseCtx with
      eval_best_move := some 200
      eval_second_best_move := some 50
      eval_player_move := some 200
      eval_before_move := some 200
      engine_top_lines := [⟨some "d5f6", none, none⟩]
      player_move_uci := "d5f6"
      engine_multipv := 2
      board_before_move := [⟨PieceType.queen, true⟩]
      board_after_move := [] }

/-- A context satisfying every Brilliant condition with a nonzero raw CPL
(10 cp) and a rook-for-pawn sacrifice. -/
def ctxBrilliantRaw : MoveAnalysisContext :=
  { baseCtx with
      eval_best_move := some 300
      eval_player_move := some 290
      eval_before_move := some 295
      board_before_move := [⟨PieceType.rook, true⟩, ⟨PieceType.pawn, false⟩]
      board_after_move := [⟨PieceType.pawn, false⟩] }

/-- A context reaching the standard tier stage: best eval 1500 (capped to
1000), played-move eval 800, no Brilliant (no pre-move eval) and no Great (no
engine lines). -/
def ctxStandard : MoveAnalysisContext :=
  { baseCtx with
      eval_best_move := some 1500
      eval_player_move := some 800 }

/-- A context satisfying every Great condition (and not Brilliant). -/
def ctxGreat : MoveAnalysisContext :=
  { baseCtx with
      eval_best_move := some 400
      eval_second_best_move := some 250
      eval_player_move := some 390
      engine_top_lines := [⟨some "g1f3", none, none⟩]
      player_move_uci := "g1f3"
      engine_multipv := 2 }

/-- A context satisfying every Great condition of the claim but with the
played move's resulting evaluation absent, so the stage-1 guard fires first. -/
def ctxGreatGuard : MoveAnalysisContext :=
  { baseCtx with
      eval_best_move := some 400
      eval_second_best_move := some 250
      eval_player_move := none
      engine_top_lines := [⟨some "g1f3", none, none⟩]
      player_move_uci := "g1f3"
      engine_multipv := 2 }

/-- An engine line reporting `Mate: 0`. -/
def lineMateZero : EngineLine := ⟨none, some (some 0), none⟩

/-- Concrete cache oracle: only `"cfen"` is cached. -/
def cacheGetW : String → Option EvalSet :=
  fun f => if f = "cfen" then some [⟨some "e2e4", none, some (some 50)⟩] else none

/-- Concrete validity oracle: `"badfen"` is rejected by the engine. -/
def isFenValidW : String → Bool := fun f => f ≠ "badfen"

/-- Concrete engine oracle. -/
def getTopMovesW : String → EvalSet :=
  fun f => [⟨some f, none, some (some 10)⟩]

/-- Sample classification results for summary building. -/
def rBest : ClassificationResult := ⟨"Best", 0, 0, false, false, true, true⟩

def rGood : ClassificationResult :=
  ⟨"Good (CPL: 30)", 30, 30, false, false, false, true⟩

def rMistake : ClassificationResult :=
  ⟨"Mistake (CPL: 150)", 150, 145, false, false, false, false⟩

-- ### Helper lemmas

/-- A FEN outside the requested list is absent from the cache-batch dict. -/
theorem get_cached_lookup_of_not_mem (cacheGet : String → Option EvalSet) :
    ∀ (fens : List String) (f : String), f ∉ fens →
      (get_cached_analyses_batch cacheGet fens).lookup f = none := by
  intro fens
  induction fens with
  | nil => intro f _; rfl
  | cons g rest ih =>
    intro f hf
    simp only [List.mem_cons, not_or] at hf
    cases hg : cacheGet g with
    | none =>
      simpa [get_cached_analyses_batch, List.filterMap_cons, hg] using ih f hf.2
    | some v =>
      have hrw : get_cached_analyses_batch cacheGet (g :: rest) =
          (g, v) :: get_cached_analyses_batch cacheGet rest := by
        simp [get_cached_analyses_batch, List.filterMap_cons, hg]
      rw [hrw, List.lookup_cons, beq_false_of_ne hf.1]
      exact ih f hf.2

/-- For a requested FEN, the cache-batch dict lookup agrees with the cache. -/
theorem get_cached_lookup_of_mem (cacheGet : String → Option EvalSet) :
    ∀ (fens : List String) (f : String), f ∈ fens →
      (get_cached_analyses_batch cacheGet fens).lookup f = cacheGet f := by
  intro fens
  induction fens with
  | nil => intro f h; cases h
  | cons g rest ih =>
    intro f hf
    by_cases hfg : f = g
    · subst hfg
      cases hg : cacheGet f with
      | some v =>
        have hrw : get_cached_analyses_batch cacheGet (f :: rest) =
            (f, v) :: get_cached_analyses_batch cacheGet rest := by
          simp [get_cached_analyses_batch, List.filterMap_cons, hg]
        rw [hrw]
        simp [List.lookup_cons]
      | none =>
        have hrw : get_cached_analyses_batch cacheGet (f :: rest) =
            get_cached_analyses_batch cacheGet rest := by
          simp [get_cached_analyses_batch, List.filterMap_cons, hg]
        rw [hrw]
        by_cases hmem : f ∈ rest
        · exact (ih f hmem).trans hg
        · exact get_cached_lookup_of_not_mem cacheGet rest f hmem
    · have hmem : f ∈ rest := by
        rcases List.mem_cons.mp hf with h | h
        · exact absurd h hfg
        · exact h
      cases hg : cacheGet g with
      | none =>
        have hrw : get_cached_analyses_batch cacheGet (g :: rest) =
            get_cached_analyses_batch cacheGet rest := by
          simp [get_cached_analyses_batch, List.filterMap_cons, hg]
        rw [hrw]; exact ih f hmem
      | some v =>
        have hrw : get_cached_analyses_batch cacheGet (g :: rest) =
            (g, v) :: get_cached_analyses_batch cacheGet rest := by
          simp [get_cached_analyses_batch, List.filterMap_cons, hg]
        rw [hrw, List.lookup_cons, beq_false_of_ne hfg]
        exact ih f hmem

/-- Lookup of a key-preserving map wrapping values in `some`. -/
theorem lookup_map_wrap_some (l : List (String × EvalSet)) (f : String) :
    (l.map fun p => (p.1, some p.2)).lookup f = (l.lookup f).map some := by
  induction l with
  | nil => rfl
  | cons p rest ih =>
    obtain ⟨k, v⟩ := p
    by_cases hfp : f = k
    · subst hfp; simp [List.lookup_cons]
    · simp [List.lookup_cons, beq_false_of_ne hfp, ih]

/-- Lookup in an appended association list, first list missing the key. -/
theorem lookup_append_of_none {α : Type} (l1 l2 : List (String × α)) (f : String)
    (h : l1.lookup f = none) : (l1 ++ l2).lookup f = l2.lookup f := by
  induction l1 with
  | nil => rfl
  | cons p rest ih =>
    obtain ⟨k, v⟩ := p
    by_cases hfp : f = k
    · subst hfp; simp [List.lookup_cons] at h
    · rw [List.cons_append, List.lookup_cons, beq_false_of_ne hfp]
      rw [List.lookup_cons, beq_false_of_ne hfp] at h
      exact ih h

/-- Lookup in an appended association list, first list holding the key. -/
theorem lookup_append_of_some {α : Type} (l1 l2 : List (String × α)) (f : String)
    (v : α) (h : l1.lookup f = some v) : (l1 ++ l2).lookup f = some v := by
  induction l1 with
  | nil => cases h
  | cons p rest ih =>
    obtain ⟨k, w⟩ := p
    by_cases hfp : f = k
    · subst hfp
      simp only [List.cons_append, List.lookup_cons, beq_self_eq_true] at h ⊢
      exact h
    · rw [List.cons_append, List.lookup_cons, beq_false_of_ne hfp]
      rw [List.lookup_cons, beq_false_of_ne hfp] at h
      exact ih h

/-- `filterMap` of an `if`-valued map is `map` over `filter`. -/
theorem filterMap_if_eq_map_filter (valid : String → Bool) (top : String → EvalSet) :
    ∀ fens : List String,
      (fens.filterMap fun f =>
        if valid f then some (f, top f) else none)
        = (fens.filter valid).map fun f => (f, top f) := by
  intro fens
  induction fens with
  | nil => rfl
  | cons g rest ih =>
    by_cases h : valid g <;>
      simp [List.filterMap_cons, List.filter_cons, h, ih]

/-- Unfolding of `get_analyses_for_game` into its four components. -/
theorem get_analyses_for_game_eq (cacheGet : String → Option EvalSet)
    (is_fen_valid : String → Bool) (get_top_moves : String → EvalSet)
    (required_fens : List String) :
    get_analyses_for_game cacheGet is_fen_valid get_top_moves required_fens =
      ⟨(get_cached_analyses_batch cacheGet required_fens).map
          (fun p => (p.1, some p.2)) ++
        analyze_fens_batch is_fen_valid get_top_moves
          (required_fens.filter fun fen =>
            ((get_cached_analyses_batch cacheGet required_fens).lookup fen).isNone),
       (get_cached_analyses_batch cacheGet required_fens).length,
       (required_fens.filter fun fen =>
         ((get_cached_analyses_batch cacheGet required_fens).lookup fen).isNone).length,
       (analyze_fens_batch is_fen_valid get_top_moves
         (required_fens.filter fun fen =>
           ((get_cached_analyses_batch cacheGet required_fens).lookup fen).isNone)).filterMap
         fun p => p.2.map fun v => (p.1, v)⟩ := rfl

/-- C2, counterexample to the claim as stated: a position the engine could not
evaluate is NOT absent from the returned mapping — it is present, mapped to a
null evaluation (`results[fen] = None` flows into `all_analyses.update`).  With
an empty cache and an engine that rejects `"x"`, the merged dict still holds
the key `"x"`. -/
theorem c2_counterexample :
    ((get_analyses_for_game (fun _ => none) (fun _ => false) (fun _ => [])
        ["x"]).analyses.lookup "x" = some none) ∧
    ¬((get_analyses_for_game (fun _ => none) (fun _ => false) (fun _ => [])
        ["x"]).analyses.lookup "x" = none) := by
  constructor <;> decide

/-- C2, amended: every requested position found in the cache, or evaluated
successfully by the engine, is present in the merged mapping with its usable
evaluation; a position the engine rejected is present with a null evaluation
(treated as unknown by callers); and the single batch write contains exactly
the newly obtained non-null engine results — never cache hits, never
failures. -/
theorem c2_provider_reconciliation (cacheGet : String → Option EvalSet)
    (is_fen_valid : String → Bool) (get_top_moves : String → EvalSet)
    (required_fens : List String) :
    (∀ f ∈ required_fens, ∀ v, cacheGet f = some v →
      (get_analyses_for_game cacheGet is_fen_valid get_top_moves
        required_fens).analyses.lookup f = some (some v)) ∧
    (∀ f ∈ required_fens, cacheGet f = none → is_fen_valid f = true →
      (get_analyses_for_game cacheGet is_fen_valid get_top_moves
        required_fens).analyses.lookup f = some (some (get_top_moves f))) ∧
    (∀ f ∈ required_fens, cacheGet f = none → is_fen_valid f = false →
      (get_analyses_for_game cacheGet is_fen_valid get_top_moves
        required_fens).analyses.lookup f = some none) ∧
    (get_analyses_for_game cacheGet is_fen_valid get_top_moves
        required_fens).written =
      (required_fens.filter fun f => (cacheGet f).isNone && is_fen_valid f).map
        fun f => (f, get_top_moves f) := by
  rw [get_analyses_for_game_eq]
  have hmiss : ∀ f ∈ required_fens, cacheGet f = none →
      f ∈ required_fens.filter fun fen =>
        ((get_cached_analyses_batch cacheGet required_fens).lookup fen).isNone := by
    intro f hf hg
    refine List.mem_filter.mpr ⟨hf, ?_⟩
    rw [get_cached_lookup_of_mem cacheGet required_fens f hf, hg]
    rfl
  have hnewly : ∀ f ∈ required_fens, cacheGet f = none →
      (analyze_fens_batch is_fen_valid get_top_moves
        (required_fens.filter fun fen =>
          ((get_cached_analyses_batch cacheGet required_fens).lookup fen).isNone)).lookup f
        = some (if is_fen_valid f then some (get_top_moves f) else none) := by
    intro f hf hg
    exact List.lookup_graph
      (fun fen => if is_fen_valid fen then some (get_top_moves fen) else none)
      (hmiss f hf hg)
  have hall0none : ∀ f, cacheGet f = none → f ∈ required_fens →
      ((get_cached_analyses_batch cacheGet required_fens).map
        (fun p => (p.1, some p.2))).lookup f = none := by
    intro f hg hf
    rw [lookup_map_wrap_some, get_cached_lookup_of_mem cacheGet required_fens f hf, hg]
    rfl
  refine ⟨?_, ?_, ?_, ?_⟩
  · intro f hf v hv
    refine lookup_append_of_some _ _ _ _ ?_
    rw [lookup_map_wrap_some, get_cached_lookup_of_mem cacheGet required_fens f hf, hv]
    rfl
  · intro f hf hg hvalid
    rw [lookup_append_of_none _ _ _ (hall0none f hg hf), hnewly f hf hg, hvalid]
    simp
  · intro f hf hg hvalid
    rw [lookup_append_of_none _ _ _ (hall0none f hg hf), hnewly f hf hg, hvalid]
    simp
  · show (List.filterMap _ (List.map _ _)) = _
    rw [List.filterMap_map]
    have hfun : ((fun p : String × Option EvalSet => p.2.map fun v => (p.1, v)) ∘
        fun fen => (fen, if is_fen_valid fen then some (get_top_moves fen) else none))
        = fun fen => if is_fen_valid fen then some (fen, get_top_moves fen) else none := by
      funext fen
      by_cases h : is_fen_valid fen <;> simp [h]
    rw [hfun, filterMap_if_eq_map_filter, List.filter_filter]
    refine congrArg _ (List.filter_congr ?_)
    intro f hf
    rw [get_cached_lookup_of_mem cacheGet required_fens f hf]
    exact Bool.and_comm _ _

/-- Witness for C2: concrete run with one cache hit (`"cfen"`), one successful
engine evaluation (`"gfen"`), and one rejected position (`"badfen"`). -/
theorem c2_provider_reconciliation_witness :
    ((get_analyses_for_game cacheGetW isFenValidW getTopMovesW
        ["cfen", "gfen", "badfen"]).analyses.lookup "cfen" =
      some (some [⟨some "e2e4", none, some (some 50)⟩])) ∧
    ((get_analyses_for_game cacheGetW isFenValidW getTopMovesW
        ["cfen", "gfen", "badfen"]).analyses.lookup "gfen" =
      some (some (getTopMovesW "gfen"))) ∧
    ((get_analyses_for_game cacheGetW isFenValidW getTopMovesW
        ["cfen", "gfen", "badfen"]).analyses.lookup "badfen" = some none) ∧
    ((get_analyses_for_game cacheGetW isFenValidW getTopMovesW
        ["cfen", "gfen", "badfen"]).written =
      [("gfen", getTopMovesW "gfen")]) :=
  ⟨(c2_provider_reconciliation cacheGetW isFenValidW getTopMovesW _).1 "cfen"
      (by decide) _ (by decide),
   (c2_provider_reconciliation cacheGetW isFenValidW getTopMovesW _).2.1 "gfen"
      (by decide) (by decide) (by decide),
   (c2_provider_reconciliation cacheGetW isFenValidW getTopMovesW _).2.2.1 "badfen"
      (by decide) (by decide) (by decide),
   ((c2_provider_reconciliation cacheGetW isFenValidW getTopMovesW _).2.2.2).trans
      (by decide)⟩

/-- The planner loop visits at most two new FENs per move. -/
theorem requiredFensLoop_card_le {B M : Type} (fenOf : B → String)
    (push : B → M → B) :
    ∀ (moves : List M) (b : B),
      (requiredFensLoop fenOf push b moves).card ≤ 2 * moves.length := by
  intro moves
  induction moves with
  | nil => intro b; simp [requiredFensLoop]
  | cons m rest ih =>
    intro b
    calc (requiredFensLoop fenOf push b (m :: rest)).card
        ≤ (insert (fenOf (push b m))
            (requiredFensLoop fenOf push (push b m) rest)).card + 1 :=
          Finset.card_insert_le _ _
      _ ≤ ((requiredFensLoop fenOf push (push b m) rest).card + 1) + 1 :=
          Nat.add_le_add_right (Finset.card_insert_le _ _) 1
      _ ≤ (2 * rest.length + 1) + 1 :=
          Nat.add_le_add_right (Nat.add_le_add_right (ih (push b m)) 1) 1
      _ = 2 * (m :: rest).length := by
          simp only [List.length_cons]; omega

/-- The planner loop contains the position before and after every move. -/
theorem requiredFensLoop_mem {B M : Type} (fenOf : B → String) (push : B → M → B) :
    ∀ (moves : List M) (b : B) (i : ℕ), i < moves.length →
      fenOf (boardAt push b moves i) ∈ requiredFensLoop fenOf push b moves ∧
      fenOf (boardAt push b moves (i + 1)) ∈ requiredFensLoop fenOf push b moves := by
  intro moves
  induction moves with
  | nil => intro b i h; exact absurd h (Nat.not_lt_zero i)
  | cons m rest ih =>
    intro b i h
    cases i with
    | zero =>
      exact ⟨Finset.mem_insert_self _ _,
             Finset.mem_insert_of_mem (Finset.mem_insert_self _ _)⟩
    | succ j =>
      have hj : j < rest.length := Nat.succ_lt_succ_iff.mp h
      obtain ⟨ha, hb⟩ := ih (push b m) j hj
      exact ⟨Finset.mem_insert_of_mem (Finset.mem_insert_of_mem ha),
             Finset.mem_insert_of_mem (Finset.mem_insert_of_mem hb)⟩

/-- C9: the position planner's output contains the starting position and, for
every played move, the position immediately before and immediately after it,
and its size is at most 2 × (number of moves) + 1. -/
theorem c9_position_planner {B M : Type} (fenOf : B → String) (push : B → M → B)
    (b0 : B) (moves : List M) :
    fenOf b0 ∈ _get_required_fens fenOf push b0 moves ∧
    (∀ i, i < moves.length →
      fenOf (boardAt push b0 moves i) ∈ _get_required_fens fenOf push b0 moves ∧
      fenOf (boardAt push b0 moves (i + 1)) ∈
        _get_required_fens fenOf push b0 moves) ∧
    (_get_required_fens fenOf push b0 moves).card ≤ 2 * moves.length + 1 := by
  refine ⟨Finset.mem_insert_self _ _, ?_, ?_⟩
  · intro i h
    obtain ⟨ha, hb⟩ := requiredFensLoop_mem fenOf push moves b0 i h
    exact ⟨Finset.mem_insert_of_mem ha, Finset.mem_insert_of_mem hb⟩
  · calc (_get_required_fens fenOf push b0 moves).card
        ≤ (requiredFensLoop fenOf push b0 moves).card + 1 :=
          Finset.card_insert_le _ _
      _ ≤ 2 * moves.length + 1 :=
          Nat.add_le_add_right (requiredFensLoop_card_le fenOf push moves b0) 1

/-- Witness for C9 on a concrete two-move game over an additive board model. -/
theorem c9_position_planner_witness :
    toString (0 : ℕ) ∈
      _get_required_fens (fun n : ℕ => toString n) (fun b m => b + m) 0 [1, 2] ∧
    toString (boardAt (fun b m : ℕ => b + m) 0 [1, 2] 1) ∈
      _get_required_fens (fun n : ℕ => toString n) (fun b m => b + m) 0 [1, 2] ∧
    toString (boardAt (fun b m : ℕ => b + m) 0 [1, 2] 2) ∈
      _get_required_fens (fun n : ℕ => toString n) (fun b m => b + m) 0 [1, 2] ∧
    (_get_required_fens (fun n : ℕ => toString n) (fun b m => b + m) 0 [1, 2]).card ≤
      2 * ([1, 2] : List ℕ).length + 1 :=
  ⟨(c9_position_planner (fun n : ℕ => toString n) (fun b m => b + m) 0 [1, 2]).1,
   ((c9_position_planner (fun n : ℕ => toString n) (fun b m => b + m) 0
      [1, 2]).2.1 1 (by decide)).1,
   ((c9_position_planner (fun n : ℕ => toString n) (fun b m => b + m) 0
      [1, 2]).2.1 1 (by decide)).2,
   (c9_position_planner (fun n : ℕ => toString n) (fun b m => b + m) 0 [1, 2]).2.2⟩

/-- C1 (code bug): the stage-1 guard does return the terminal "Unavailable"
result with zero CPL fields, but `classify_move` is not total: on any context
matching the Brilliant stage, the source's
`brilliant_result.__class__(**brilliant_result.__dict__, is_engine_top_choice=…,
is_engine_top_n_choice=…)` raises `TypeError` (the dataclass `__dict__` already
holds both keywords), despite the adjacent comment asking for
`dataclasses.replace`. -/
theorem c1_classifier_not_total :
    classify_move ctxUnavailable =
      .ok ⟨"Unavailable (eval error)", 0, 0, false, false, false, false⟩ ∧
    classify_move ctxBrilliant = .raises .typeError := by
  constructor
  · norm_num [classify_move, ctxUnavailable, baseCtx, _check_for_brilliant,
      _check_for_great]
  · norm_num [classify_move, ctxBrilliant, baseCtx, _check_for_brilliant,
      _check_for_great, _is_significant_piece_sacrifice, get_material_diff,
      pyRound2, roundHalfEven, raw_cpl_of, _cap_score, is_top_choice_of,
      BRILLIANT_CRITERIA, CPL_INDIVIDUAL_EVAL_CAP_CP, PIECE_VALUES, min_def,
      max_def]

/-- C3 (code bug): on a context satisfying both the Brilliant and the Great
conditions, the Brilliant stage is indeed consulted first (both helpers match),
but `classify_move` raises `TypeError` in the Brilliant branch instead of
returning the Brilliant classification. -/
theorem c3_brilliant_priority :
    _check_for_brilliant ctxBrilliantGreat (raw_cpl_of ctxBrilliantGreat) =
      some ⟨"Brilliant ✨", 0, 0, true, false, false, false⟩ ∧
    _check_for_great ctxBrilliantGreat (is_top_choice_of ctxBrilliantGreat) =
      some ⟨"Great Move !", 0, 0, false, true, true, true⟩ ∧
    classify_move ctxBrilliantGreat = .raises .typeError := by
  refine ⟨?_, ?_, ?_⟩
  · norm_num [ctxBrilliantGreat, baseCtx, _check_for_brilliant,
      _is_significant_piece_sacrifice, get_material_diff, pyRound2,
      roundHalfEven, raw_cpl_of, _cap_score, BRILLIANT_CRITERIA,
      CPL_INDIVIDUAL_EVAL_CAP_CP, PIECE_VALUES, min_def, max_def]
  · norm_num [ctxBrilliantGreat, baseCtx, _check_for_great, is_top_choice_of,
      GREAT_CRITERIA]
  · norm_num [classify_move, ctxBrilliantGreat, baseCtx, _check_for_brilliant,
      _check_for_great, _is_significant_piece_sacrifice, get_material_diff,
      pyRound2, roundHalfEven, raw_cpl_of, _cap_score, is_top_choice_of,
      BRILLIANT_CRITERIA, CPL_INDIVIDUAL_EVAL_CAP_CP, PIECE_VALUES, min_def,
      max_def]

/-- C4 (code bug): on a context satisfying all Brilliant conditions (raw CPL
10 ≤ 20, pre-move eval 295 below the 350 ceiling, eval drop 5 ≤ 15, net
material sacrificed 5 ≥ 2.5 pawn units) the Brilliant helper produces the
Brilliant payload with cpl = 0 and the raw CPL preserved — but `classify_move`
raises `TypeError` instead of returning it with the top-choice flags. -/
theorem c4_brilliant_result :
    _check_for_brilliant ctxBrilliantRaw (raw_cpl_of ctxBrilliantRaw) =
      some ⟨"Brilliant ✨", 0, raw_cpl_of ctxBrilliantRaw, true, false, false,
            false⟩ ∧
    raw_cpl_of ctxBrilliantRaw = 10 ∧
    get_material_diff ctxBrilliantRaw.board_before_move true -
      get_material_diff ctxBrilliantRaw.board_after_move true = 5 ∧
    classify_move ctxBrilliantRaw = .raises .typeError := by
  refine ⟨?_, ?_, ?_, ?_⟩
  · norm_num [ctxBrilliantRaw, baseCtx, _check_for_brilliant,
      _is_significant_piece_sacrifice, get_material_diff, pyRound2,
      roundHalfEven, raw_cpl_of, _cap_score, BRILLIANT_CRITERIA,
      CPL_INDIVIDUAL_EVAL_CAP_CP, PIECE_VALUES, min_def, max_def]
  · norm_num [ctxBrilliantRaw, baseCtx, raw_cpl_of, _cap_score,
      CPL_INDIVIDUAL_EVAL_CAP_CP, min_def, max_def]
  · norm_num [ctxBrilliantRaw, baseCtx, get_material_diff, pyRound2,
      roundHalfEven, PIECE_VALUES]
  · norm_num [classify_move, ctxBrilliantRaw, baseCtx, _check_for_brilliant,
      _check_for_great, _is_significant_piece_sacrifice, get_material_diff,
      pyRound2, roundHalfEven, raw_cpl_of, _cap_score, is_top_choice_of,
      BRILLIANT_CRITERIA, CPL_INDIVIDUAL_EVAL_CAP_CP, PIECE_VALUES, min_def,
      max_def]

/-- C7 (code bug): on a line reporting `Mate: 0` the white-perspective call
returns mate distance `0` while the black-perspective call returns no distance,
so the returned mate distance is not negated between opposite sides (the score
is).  The repository's own test expects distance `None` for the white
perspective here. -/
theorem c7_mate_zero_distance :
    get_score_from_line (some lineMateZero) WHITE = (some 0, false, some 0) ∧
    get_score_from_line (some lineMateZero) BLACK = (some 0, false, none) := by
  constructor
  · norm_num [get_score_from_line, lineMateZero, WHITE]
  · norm_num [get_score_from_line, lineMateZero, BLACK, WHITE]

/-- White-perspective normalization of a line with a parseable mate field. -/
theorem get_score_from_line_mate_white (l : EngineLine) (m : ℤ)
    (h : l.mate = some (some m)) :
    get_score_from_line (some l) WHITE =
      if m = 0 then (some 0, false, some 0)
      else if 0 < m then
        (some (MATE_SCORE_EQUIVALENT_CP - |(m : ℚ)|), true, some m)
      else (some (-MATE_SCORE_EQUIVALENT_CP + |(m : ℚ)|), true, some m) := by
  by_cases h0 : m = 0
  · simp [get_score_from_line, h, h0, WHITE]
  · by_cases hpos : 0 < m
    · have habs : |(m : ℚ)| = (m : ℚ) := abs_of_pos (by exact_mod_cast hpos)
      simp [get_score_from_line, h, h0, hpos, WHITE, habs]
    · have hneg : m < 0 := by omega
      have habs : |(m : ℚ)| = -(m : ℚ) := abs_of_neg (by exact_mod_cast hneg)
      simp [get_score_from_line, h, h0, hpos, WHITE, habs]

/-- C8 (amended): absent lines normalize to `(absent, not-mate, absent)`;
`Mate: 0` is non-mate with score 0; `m > 0` scores `30000 − |m|` and `m < 0`
scores `−30000 + |m|`; the strict magnitude ordering between same-signed mate
distances holds for magnitudes at most 30000, and a mate with magnitude below
29000 dominates every capped centipawn score in magnitude. -/
theorem c8_mate_score_normalization :
    (get_score_from_line none WHITE = (none, false, none) ∧
     get_score_from_line none BLACK = (none, false, none)) ∧
    (∀ (l : EngineLine) (m : ℤ), l.mate = some (some m) →
      (m = 0 → get_score_from_line (some l) WHITE = (some 0, false, some 0)) ∧
      (0 < m → get_score_from_line (some l) WHITE =
        (some (MATE_SCORE_EQUIVALENT_CP - |(m : ℚ)|), true, some m)) ∧
      (m < 0 → get_score_from_line (some l) WHITE =
        (some (-MATE_SCORE_EQUIVALENT_CP + |(m : ℚ)|), true, some m))) ∧
    (∀ (l1 l2 : EngineLine) (m1 m2 : ℤ) (s1 s2 : ℚ),
      l1.mate = some (some m1) → l2.mate = some (some m2) →
      ((0 < m1 ∧ 0 < m2) ∨ (m1 < 0 ∧ m2 < 0)) → |m1| < |m2| → |m2| ≤ 30000 →
      (get_score_from_line (some l1) WHITE).1 = some s1 →
      (get_score_from_line (some l2) WHITE).1 = some s2 →
      |s2| < |s1|) ∧
    (∀ (l : EngineLine) (m : ℤ) (s q : ℚ),
      l.mate = some (some m) → m ≠ 0 → |m| < 29000 →
      (get_score_from_line (some l) WHITE).1 = some s →
      |_cap_score (some q) false| < |s|) := by
  refine ⟨⟨rfl, rfl⟩, ?_, ?_, ?_⟩
  · intro l m h
    refine ⟨fun h0 => ?_, fun hpos => ?_, fun hneg => ?_⟩
    · rw [get_score_from_line_mate_white l m h, if_pos h0]
    · rw [get_score_from_line_mate_white l m h, if_neg (by omega), if_pos hpos]
    · rw [get_score_from_line_mate_white l m h, if_neg (by omega),
        if_neg (by omega)]
  · intro l1 l2 m1 m2 s1 s2 h1 h2 hsign habs hbound hs1 hs2
    rcases hsign with ⟨hp1, hp2⟩ | ⟨hn1, hn2⟩
    · rw [get_score_from_line_mate_white l1 m1 h1, if_neg (by omega),
        if_pos hp1] at hs1
      rw [get_score_from_line_mate_white l2 m2 h2, if_neg (by omega),
        if_pos hp2] at hs2
      obtain rfl := Option.some.inj hs1
      obtain rfl := Option.some.inj hs2
      rw [abs_of_pos hp1] at habs
      rw [abs_of_pos hp2] at habs hbound
      have hm1 : |(m1 : ℚ)| = (m1 : ℚ) := abs_of_pos (by exact_mod_cast hp1)
      have hm2 : |(m2 : ℚ)| = (m2 : ℚ) := abs_of_pos (by exact_mod_cast hp2)
      have hq1 : (m1 : ℚ) < (m2 : ℚ) := by exact_mod_cast habs
      have hq2 : (m2 : ℚ) ≤ 30000 := by exact_mod_cast hbound
      have hqp1 : (0 : ℚ) < (m1 : ℚ) := by exact_mod_cast hp1
      rw [hm1, hm2, MATE_SCORE_EQUIVALENT_CP,
        abs_of_nonneg (by linarith : (0 : ℚ) ≤ 30000 - (m2 : ℚ)),
        abs_of_nonneg (by linarith : (0 : ℚ) ≤ 30000 - (m1 : ℚ))]
      linarith
    · rw [get_score_from_line_mate_white l1 m1 h1, if_neg (by omega),
        if_neg (by omega)] at hs1
      rw [get_score_from_line_mate_white l2 m2 h2, if_neg (by omega),
        if_neg (by omega)] at hs2
      obtain rfl := Option.some.inj hs1
      obtain rfl := Option.some.inj hs2
      rw [abs_of_neg hn1] at habs
      rw [abs_of_neg hn2] at habs hbound
      have hm1 : |(m1 : ℚ)| = -(m1 : ℚ) := abs_of_neg (by exact_mod_cast hn1)
      have hm2 : |(m2 : ℚ)| = -(m2 : ℚ) := abs_of_neg (by exact_mod_cast hn2)
      have hq1 : -(m1 : ℚ) < -(m2 : ℚ) := by exact_mod_cast habs
      have hq2 : -(m2 : ℚ) ≤ 30000 := by exact_mod_cast hbound
      have hqn1 : (m1 : ℚ) < 0 := by exact_mod_cast hn1
      rw [hm1, hm2, MATE_SCORE_EQUIVALENT_CP,
        abs_of_nonpos (by linarith : -30000 + -(m2 : ℚ) ≤ 0),
        abs_of_nonpos (by linarith : -30000 + -(m1 : ℚ) ≤ 0)]
      linarith
  · intro l m s q h hm0 hmb hs
    have hcap : |_cap_score (some q) false| ≤ 1000 := by
      rw [_cap_score]
      simp only [Bool.false_eq_true, if_false, CPL_INDIVIDUAL_EVAL_CAP_CP]
      rw [abs_le]
      constructor
      · exact le_min (by norm_num) (le_max_left _ _)
      · exact min_le_left _ _
    have hsval : |s| = 30000 - |(m : ℚ)| := by
      by_cases hpos : 0 < m
      · rw [get_score_from_line_mate_white l m h, if_neg hm0, if_pos hpos] at hs
        obtain rfl := Option.some.inj hs
        have habs : |(m : ℚ)| ≤ 29000 := by
          rw [abs_of_pos hpos] at hmb
          rw [abs_of_pos (by exact_mod_cast hpos : (0 : ℚ) < (m : ℚ))]
          exact_mod_cast le_of_lt hmb
        rw [MATE_SCORE_EQUIVALENT_CP,
          abs_of_nonneg (by linarith : (0 : ℚ) ≤ 30000 - |(m : ℚ)|)]
      · have hneg : m < 0 := by omega
        rw [get_score_from_line_mate_white l m h, if_neg hm0, if_neg hpos] at hs
        obtain rfl := Option.some.inj hs
        have habs : |(m : ℚ)| ≤ 29000 := by
          rw [abs_of_neg hneg] at hmb
          rw [abs_of_neg (by exact_mod_cast hneg : (m : ℚ) < 0)]
          exact_mod_cast le_of_lt hmb
        rw [MATE_SCORE_EQUIVALENT_CP,
          abs_of_nonpos (by linarith : -30000 + |(m : ℚ)| ≤ 0)]
        ring
    have hmlt : |(m : ℚ)| < 29000 := by
      by_cases hpos : 0 < m
      · rw [abs_of_pos (by exact_mod_cast hpos : (0 : ℚ) < (m : ℚ))]
        rw [abs_of_pos hpos] at hmb
        exact_mod_cast hmb
      · have hneg : m < 0 := by omega
        rw [abs_of_neg (by exact_mod_cast hneg : (m : ℚ) < 0)]
        rw [abs_of_neg hneg] at hmb
        exact_mod_cast hmb
    rw [hsval]
    linarith

/-- C8, counterexample to the claim as stated: the "smaller distance means
strictly larger magnitude" and "any mate dominates any capped centipawn score"
parts fail for mate distances beyond the mate constant — `Mate: 29999` scores
magnitude 1, `Mate: 30001` also scores magnitude 1, and `Mate: 29001` scores
999, which a capped 1000 cp evaluation matches or exceeds. -/
theorem c8_counterexample :
    (get_score_from_line (some ⟨none, some (some 29999), none⟩) WHITE).1 =
      some 1 ∧
    (get_score_from_line (some ⟨none, some (some 30001), none⟩) WHITE).1 =
      some (-1) ∧
    |(-1 : ℚ)| = |(1 : ℚ)| ∧
    (get_score_from_line (some ⟨none, some (some 29001), none⟩) WHITE).1 =
      some 999 ∧
    _cap_score (some 2000) false = 1000 ∧ ¬((1000 : ℚ) < |(999 : ℚ)|) := by
  refine ⟨?_, ?_, by norm_num, ?_, ?_, by norm_num [abs]⟩
  · norm_num [get_score_from_line, WHITE, MATE_SCORE_EQUIVALENT_CP]
  · norm_num [get_score_from_line, WHITE, MATE_SCORE_EQUIVALENT_CP]
  · norm_num [get_score_from_line, WHITE, MATE_SCORE_EQUIVALENT_CP]
  · norm_num [_cap_score, CPL_INDIVIDUAL_EVAL_CAP_CP, min_def, max_def]

/-- Witness for C8 at concrete lines: `Mate: 3`, the ordering pair
`(Mate: 2, Mate: 5)`, and dominance of `Mate: 3` over a 2000 cp evaluation. -/
theorem c8_mate_score_normalization_witness :
    (get_score_from_line (some ⟨none, some (some 3), none⟩) WHITE =
      (some (MATE_SCORE_EQUIVALENT_CP - |((3 : ℤ) : ℚ)|), true, some 3)) ∧
    |(29995 : ℚ)| < |(29998 : ℚ)| ∧
    |_cap_score (some 2000) false| < |(29997 : ℚ)| :=
  ⟨(c8_mate_score_normalization.2.1 ⟨none, some (some 3), none⟩ 3 rfl).2.1
      (by norm_num),
   c8_mate_score_normalization.2.2.1 ⟨none, some (some 2), none⟩
      ⟨none, some (some 5), none⟩ 2 5 29998 29995 rfl rfl
      (Or.inl ⟨by norm_num, by norm_num⟩) (by norm_num) (by norm_num)
      (by norm_num [get_score_from_line, WHITE, MATE_SCORE_EQUIVALENT_CP])
      (by norm_num [get_score_from_line, WHITE, MATE_SCORE_EQUIVALENT_CP]),
   c8_mate_score_normalization.2.2.2 ⟨none, some (some 3), none⟩ 3 29997 2000
      rfl (by norm_num) (by norm_num)
      (by norm_num [get_score_from_line, WHITE, MATE_SCORE_EQUIVALENT_CP])⟩

/-- The ordered threshold walk assigns exactly the tier whose inclusive upper
bound is the first to be reached, with "Blunder" past the last bound. -/
theorem tier_table (c : ℚ) :
    (c ≤ 5 → _get_standard_classification c = "Best") ∧
    (5 < c → c ≤ 40 → _get_standard_classification c = "Good") ∧
    (40 < c → c ≤ 70 → _get_standard_classification c = "OK") ∧
    (70 < c → c ≤ 90 → _get_standard_classification c = "Dubious") ∧
    (90 < c → c ≤ 180 → _get_standard_classification c = "Inaccuracy") ∧
    (180 < c → c ≤ 300 → _get_standard_classification c = "Mistake") ∧
    (300 < c → _get_standard_classification c = "Blunder") := by
  simp only [_get_standard_classification, MOVE_CLASSIFICATION_THRESHOLDS,
    classificationLoop]
  refine ⟨?_, ?_, ?_, ?_, ?_, ?_, ?_⟩ <;> intros <;> split_ifs <;>
    first | rfl | linarith

/-- Reduction of `classify_move` when both guard evaluations are present and
neither special stage matches. -/
theorem classify_move_standard_eq (ctx : MoveAnalysisContext)
    (hb : ctx.eval_best_move.isNone = false)
    (hp : ctx.eval_player_move.isNone = false)
    (hbr : _check_for_brilliant ctx (raw_cpl_of ctx) = none)
    (hgr : _check_for_great ctx (is_top_choice_of ctx) = none) :
    classify_move ctx =
      .ok ⟨(if _get_standard_classification
               (min ACPL_MOVE_CPL_CAP_CP (max 0 (raw_cpl_of ctx))) = "Best" then
              _get_standard_classification
                (min ACPL_MOVE_CPL_CAP_CP (max 0 (raw_cpl_of ctx)))
            else if _get_standard_classification
               (min ACPL_MOVE_CPL_CAP_CP (max 0 (raw_cpl_of ctx))) = "Blunder" then
              "Blunder !!! (CPL: " ++
                pyFormatF0 (min ACPL_MOVE_CPL_CAP_CP (max 0 (raw_cpl_of ctx))) ++ ")"
            else
              _get_standard_classification
                (min ACPL_MOVE_CPL_CAP_CP (max 0 (raw_cpl_of ctx))) ++
                " (CPL: " ++
                pyFormatF0 (min ACPL_MOVE_CPL_CAP_CP (max 0 (raw_cpl_of ctx))) ++ ")"),
           min ACPL_MOVE_CPL_CAP_CP (max 0 (raw_cpl_of ctx)),
           raw_cpl_of ctx, false, false, is_top_choice_of ctx,
           is_top_n_choice_of ctx⟩ := by
  rw [classify_move, if_neg (by rw [hb, hp]; simp)]
  simp only [hbr, hgr]

/-- C5: with both guard evaluations present and neither the Brilliant nor the
Great stage matching, `classify_move` returns the standard result: raw CPL is
the difference of the ±1000-capped (mate scores uncapped) evaluations,
metrics-CPL clamps it into [0, 1000] (zero or negative raw CPL clamps to 0
while the raw value is preserved), and the classification name is the first
tier of the ordered table whose inclusive threshold reaches the metrics-CPL,
"Blunder" past all thresholds. -/
theorem c5_standard_tier_classification (ctx : MoveAnalysisContext) (eb ep : ℚ)
    (hb : ctx.eval_best_move = some eb) (hp : ctx.eval_player_move = some ep)
    (hbr : _check_for_brilliant ctx (raw_cpl_of ctx) = none)
    (hgr : _check_for_great ctx (is_top_choice_of ctx) = none) :
    ∃ r, classify_move ctx = .ok r ∧
      r.raw_cpl =
        (if ctx.is_mate_best_move then eb else min 1000 (max (-1000) eb)) -
        (if ctx.is_mate_player_move then ep else min 1000 (max (-1000) ep)) ∧
      r.cpl = min 1000 (max 0 r.raw_cpl) ∧
      0 ≤ r.cpl ∧ r.cpl ≤ 1000 ∧
      (r.raw_cpl ≤ 0 → r.cpl = 0) ∧
      (r.cpl ≤ 5 → _get_standard_classification r.cpl = "Best") ∧
      (5 < r.cpl → r.cpl ≤ 40 → _get_standard_classification r.cpl = "Good") ∧
      (40 < r.cpl → r.cpl ≤ 70 → _get_standard_classification r.cpl = "OK") ∧
      (70 < r.cpl → r.cpl ≤ 90 →
        _get_standard_classification r.cpl = "Dubious") ∧
      (90 < r.cpl → r.cpl ≤ 180 →
        _get_standard_classification r.cpl = "Inaccuracy") ∧
      (180 < r.cpl → r.cpl ≤ 300 →
        _get_standard_classification r.cpl = "Mistake") ∧
      (300 < r.cpl → _get_standard_classification r.cpl = "Blunder") ∧
      (∃ suffix,
        r.classification_text = _get_standard_classification r.cpl ++ suffix) := by
  have hraw : raw_cpl_of ctx =
      (if ctx.is_mate_best_move then eb else min 1000 (max (-1000) eb)) -
      (if ctx.is_mate_player_move then ep else min 1000 (max (-1000) ep)) := by
    rw [raw_cpl_of, hb, hp]
    rcases ctx.is_mate_best_move <;> rcases ctx.is_mate_player_move <;>
      simp [_cap_score, CPL_INDIVIDUAL_EVAL_CAP_CP]
  refine ⟨_, classify_move_standard_eq ctx (by rw [hb]; rfl) (by rw [hp]; rfl)
    hbr hgr, ?_⟩
  show _ ∧ _
  obtain ⟨t1, t2, t3, t4, t5, t6, t7⟩ :=
    tier_table (min ACPL_MOVE_CPL_CAP_CP (max 0 (raw_cpl_of ctx)))
  refine ⟨hraw, rfl, ?_, ?_, ?_, t1, t2, t3, t4, t5, t6, t7, ?_⟩
  · exact le_min (by norm_num [ACPL_MOVE_CPL_CAP_CP]) (le_max_left 0 _)
  · exact (min_le_left _ _).trans (by norm_num [ACPL_MOVE_CPL_CAP_CP])
  · intro hle
    rw [max_eq_left hle, min_eq_right (by norm_num [ACPL_MOVE_CPL_CAP_CP])]
  · by_cases hbest :
      _get_standard_classification
        (min ACPL_MOVE_CPL_CAP_CP (max 0 (raw_cpl_of ctx))) = "Best"
    · refine ⟨"", ?_⟩
      rw [if_pos hbest]
      exact (String.append_empty _).symm
    · by_cases hblunder :
        _get_standard_classification
          (min ACPL_MOVE_CPL_CAP_CP (max 0 (raw_cpl_of ctx))) = "Blunder"
      · refine ⟨" !!! (CPL: " ++
          pyFormatF0 (min ACPL_MOVE_CPL_CAP_CP (max 0 (raw_cpl_of ctx))) ++ ")",
          ?_⟩
        rw [if_neg hbest, if_pos hblunder, hblunder]
        rw [show ("Blunder !!! (CPL: " : String) = "Blunder" ++ " !!! (CPL: "
          from by decide]
        simp only [String.append_assoc]
      · refine ⟨" (CPL: " ++
          pyFormatF0 (min ACPL_MOVE_CPL_CAP_CP (max 0 (raw_cpl_of ctx))) ++ ")",
          ?_⟩
        rw [if_neg hbest, if_neg hblunder]
        simp [String.append_assoc]

/-- Witness for C5 at a concrete context: best eval 1500 (capped to 1000),
played-move eval 800, no Brilliant and no Great stage match. -/
theorem c5_standard_tier_classification_witness :
    ∃ r, classify_move ctxStandard = .ok r ∧
      r.raw_cpl =
        (if ctxStandard.is_mate_best_move then (1500 : ℚ)
         else min 1000 (max (-1000) 1500)) -
        (if ctxStandard.is_mate_player_move then (800 : ℚ)
         else min 1000 (max (-1000) 800)) ∧
      r.cpl = min 1000 (max 0 r.raw_cpl) ∧
      0 ≤ r.cpl ∧ r.cpl ≤ 1000 ∧
      (r.raw_cpl ≤ 0 → r.cpl = 0) ∧
      (r.cpl ≤ 5 → _get_standard_classification r.cpl = "Best") ∧
      (5 < r.cpl → r.cpl ≤ 40 → _get_standard_classification r.cpl = "Good") ∧
      (40 < r.cpl → r.cpl ≤ 70 → _get_standard_classification r.cpl = "OK") ∧
      (70 < r.cpl → r.cpl ≤ 90 →
        _get_standard_classification r.cpl = "Dubious") ∧
      (90 < r.cpl → r.cpl ≤ 180 →
        _get_standard_classification r.cpl = "Inaccuracy") ∧
      (180 < r.cpl → r.cpl ≤ 300 →
        _get_standard_classification r.cpl = "Mistake") ∧
      (300 < r.cpl → _get_standard_classification r.cpl = "Blunder") ∧
      (∃ suffix,
        r.classification_text = _get_standard_classification r.cpl ++ suffix) :=
  c5_standard_tier_classification ctxStandard 1500 800 rfl rfl rfl rfl

/-- The played move is the engine's top choice exactly when the line list is
nonempty and its head carries the played UCI move. -/
theorem is_top_choice_iff (ctx : MoveAnalysisContext) :
    is_top_choice_of ctx = true ↔
      ∃ l0 rest, ctx.engine_top_lines = l0 :: rest ∧
        l0.move = some ctx.player_move_uci := by
  unfold is_top_choice_of
  cases hl : ctx.engine_top_lines with
  | nil =>
    simp only [Bool.false_eq_true, false_iff]
    rintro ⟨l0, rest, hcons, -⟩
    cases hcons
  | cons l0 tl =>
    simp only [beq_iff_eq]
    constructor
    · intro h
      exact ⟨l0, tl, rfl, h⟩
    · rintro ⟨l0', rest', hcons, hmove⟩
      obtain ⟨rfl, rfl⟩ : l0' = l0 ∧ rest' = tl := by
        injection hcons with h1 h2
        exact ⟨h1.symm, h2.symm⟩
      exact hmove

/-- Characterization of the Great-stage helper. -/
theorem check_for_great_eq_some_iff (ctx : MoveAnalysisContext) (tc : Bool)
    (r : ClassificationResult) :
    _check_for_great ctx tc = some r ↔
      (r = ⟨"Great Move !", 0, 0, false, true, true, true⟩ ∧ tc = true ∧
       2 ≤ ctx.engine_multipv ∧
       ∃ e0 e1, ctx.eval_best_move = some e0 ∧
         ctx.eval_second_best_move = some e1 ∧
         ctx.is_mate_best_move = false ∧ ctx.is_mate_second_best_move = false ∧
         ctx.great_criteria.min_uniqueness_gain_cp ≤ e0 - e1) := by
  constructor
  · intro h
    rw [_check_for_great] at h
    split at h
    · cases h
    · rename_i hcond
      push_neg at hcond
      obtain ⟨htc, hpv⟩ := hcond
      have htc' : tc = true := by
        revert htc; cases tc <;> simp
      split at h
      · rename_i e0 e1 he0 he1
        split at h
        · cases h
        · rename_i hmate
          push_neg at hmate
          obtain ⟨hm0, hm1⟩ := hmate
          have hm0' : ctx.is_mate_best_move = false := by
            revert hm0; cases ctx.is_mate_best_move <;> simp
          have hm1' : ctx.is_mate_second_best_move = false := by
            revert hm1; cases ctx.is_mate_second_best_move <;> simp
          split at h
          · cases h
          · rename_i hgain
            obtain rfl := Option.some.inj h
            exact ⟨rfl, htc', by omega, e0, e1, he0, he1, hm0', hm1',
              not_lt.mp hgain⟩
      · cases h
  · rintro ⟨rfl, htc, hpv, e0, e1, he0, he1, hm0, hm1, hgain⟩
    subst htc
    have hng : ¬(e0 - e1 < ctx.great_criteria.min_uniqueness_gain_cp) :=
      not_lt.mpr hgain
    rw [_check_for_great,
      if_neg (by push_neg; exact ⟨by simp, by omega⟩)]
    simp [he0, he1, hm0, hm1, hng]

/-- C6 (amended): `classify_move` returns the Great result — label
"Great Move !", cpl = 0, raw_cpl = 0, is-great set, both top-choice flags
true — exactly when both guard evaluations are present, the Brilliant stage
did not match, the played move equals the engine's rank-0 move, the requested
line count is at least 2, both rank-0 and rank-1 evaluations exist, neither is
a mate score, and their gap is at least the configured 120 cp. -/
theorem c6_great_move_iff (ctx : MoveAnalysisContext)
    (hc : ctx.great_criteria = GREAT_CRITERIA) :
    classify_move ctx = .ok ⟨"Great Move !", 0, 0, false, true, true, true⟩ ↔
      (ctx.eval_best_move.isSome ∧ ctx.eval_player_move.isSome ∧
       _check_for_brilliant ctx (raw_cpl_of ctx) = none ∧
       (∃ l0 rest, ctx.engine_top_lines = l0 :: rest ∧
         l0.move = some ctx.player_move_uci) ∧
       2 ≤ ctx.engine_multipv ∧
       (∃ e0 e1, ctx.eval_best_move = some e0 ∧
         ctx.eval_second_best_move = some e1 ∧
         ctx.is_mate_best_move = false ∧ ctx.is_mate_second_best_move = false ∧
         (120 : ℚ) ≤ e0 - e1)) := by
  constructor
  · intro h
    cases hb : ctx.eval_best_move with
    | none => simp [classify_move, hb] at h
    | some eb =>
      cases hp : ctx.eval_player_move with
      | none => simp [classify_move, hb, hp] at h
      | some ep =>
        rw [classify_move, if_neg (by rw [hb, hp]; simp)] at h
        cases hbr : _check_for_brilliant ctx (raw_cpl_of ctx) with
        | some br => simp [hbr] at h
        | none =>
          simp only [hbr] at h
          cases hgrt : _check_for_great ctx (is_top_choice_of ctx) with
          | none => simp [hgrt] at h
          | some g =>
            simp only [hgrt] at h
            obtain rfl := (PyOutcome.ok.injEq _ _).mp h
            obtain ⟨-, htc, hpv, e0, e1, he0, he1, hm0, hm1, hgain⟩ :=
              (check_for_great_eq_some_iff ctx (is_top_choice_of ctx) _).mp hgrt
            rw [hc] at hgain
            rw [hb] at he0
            exact ⟨rfl, rfl, rfl, (is_top_choice_iff ctx).mp htc, hpv,
              e0, e1, he0, he1, hm0, hm1, hgain⟩
  · rintro ⟨hbs, hps, hbr, htop, hpv, e0, e1, he0, he1, hm0, hm1, hgain⟩
    have htc : is_top_choice_of ctx = true := (is_top_choice_iff ctx).mpr htop
    have hgrt : _check_for_great ctx (is_top_choice_of ctx) =
        some ⟨"Great Move !", 0, 0, false, true, true, true⟩ :=
      (check_for_great_eq_some_iff ctx (is_top_choice_of ctx) _).mpr
        ⟨rfl, htc, hpv, e0, e1, he0, he1, hm0, hm1, by rw [hc]; exact hgain⟩
    rw [classify_move,
      if_neg (by
        rw [Option.isSome_iff_ne_none] at hbs hps
        simp only [Bool.or_eq_true, Option.isNone_iff_eq_none, not_or]
        exact ⟨hbs, hps⟩)]
    simp only [hbr, hgrt]

/-- C6, counterexample to the claim as stated: a context satisfying every
Great condition of the claim (Brilliant stage not matching included) but with
the played move's resulting evaluation absent is classified "Unavailable" by
the stage-1 guard, not "Great Move !" — the claim's "exactly when" omits the
missing-data guard. -/
theorem c6_counterexample :
    _check_for_brilliant ctxGreatGuard (raw_cpl_of ctxGreatGuard) = none ∧
    (∃ l0 rest, ctxGreatGuard.engine_top_lines = l0 :: rest ∧
      l0.move = some ctxGreatGuard.player_move_uci) ∧
    2 ≤ ctxGreatGuard.engine_multipv ∧
    (∃ e0 e1, ctxGreatGuard.eval_best_move = some e0 ∧
      ctxGreatGuard.eval_second_best_move = some e1 ∧
      ctxGreatGuard.is_mate_best_move = false ∧
      ctxGreatGuard.is_mate_second_best_move = false ∧ (120 : ℚ) ≤ e0 - e1) ∧
    classify_move ctxGreatGuard =
      .ok ⟨"Unavailable (eval error)", 0, 0, false, false, false, false⟩ ∧
    classify_move ctxGreatGuard ≠
      .ok ⟨"Great Move !", 0, 0, false, true, true, true⟩ := by
  refine ⟨rfl, ⟨⟨some "g1f3", none, none⟩, [], rfl, rfl⟩, by decide,
    ⟨400, 250, rfl, rfl, rfl, rfl, by norm_num⟩, rfl, ?_⟩
  intro h
  rw [show classify_move ctxGreatGuard =
      .ok ⟨"Unavailable (eval error)", 0, 0, false, false, false, false⟩
    from rfl] at h
  simp at h

/-- Witness for C6: a context meeting every amended condition is classified
"Great Move !". -/
theorem c6_great_move_iff_witness :
    classify_move ctxGreat =
      .ok ⟨"Great Move !", 0, 0, false, true, true, true⟩ :=
  (c6_great_move_iff ctxGreat rfl).mpr
    ⟨rfl, rfl, rfl, ⟨⟨some "g1f3", none, none⟩, [], rfl, rfl⟩, by decide,
     400, 250, rfl, rfl, rfl, rfl, by norm_num⟩

/-- A parity filter keeping both even and odd indices keeps every ply. -/
theorem enum_parity_filter_all (rs : List ClassificationResult) :
    (rs.enum.filter fun p =>
      decide (p.1 % 2 = 0) || decide (¬p.1 % 2 = 0)).map Prod.snd = rs := by
  have hall : ∀ p ∈ rs.enum,
      (decide (p.1 % 2 = 0) || decide (¬p.1 % 2 = 0)) = true := by
    intro p _
    by_cases h : p.1 % 2 = 0 <;> simp [h]
  rw [List.filter_eq_self.mpr hall, List.enum_map_snd]

/-- C10 (amended): for any lowercasing collaborator, `build_game_summary`
returns no summary when no target player is specified (`None` or the empty
string), when the lowercased target matches neither recorded name, or when the
matched side's ply selection is empty; when a summary is returned: a target
matching only the White name contributes exactly the even-indexed plies, a
target matching only the Black name exactly the odd-indexed plies, and a
target matching both names (identically lowercased header names) is attributed
to White with every ply contributing — the selection feeding the summary's CPL
sequence, stripped-label tallies, and top-1/top-N match counts. -/
theorem c10_game_summary_filtering :
    (∀ (lower : String → String) (headers : GameHeaders) (gid : String)
       (rs : List ClassificationResult),
      build_game_summary lower headers gid none rs = none) ∧
    (∀ (lower : String → String) (headers : GameHeaders) (gid : String)
       (rs : List ClassificationResult),
      build_game_summary lower headers gid (some "") rs = none) ∧
    (∀ (lower : String → String) (headers : GameHeaders) (gid tp : String)
       (rs : List ClassificationResult),
      tp ≠ "" → lower tp ≠ lower headers.white →
      lower tp ≠ lower headers.black →
      build_game_summary lower headers gid (some tp) rs = none) ∧
    (∀ (lower : String → String) (headers : GameHeaders) (gid tp : String)
       (rs : List ClassificationResult),
      tp ≠ "" → lower tp = lower headers.white →
      lower tp ≠ lower headers.black → evenPlies rs = [] →
      build_game_summary lower headers gid (some tp) rs = none) ∧
    (∀ (lower : String → String) (headers : GameHeaders) (gid tp : String)
       (rs : List ClassificationResult),
      tp ≠ "" → lower tp ≠ lower headers.white →
      lower tp = lower headers.black → oddPlies rs = [] →
      build_game_summary lower headers gid (some tp) rs = none) ∧
    (∀ (lower : String → String) (headers : GameHeaders) (gid tp : String)
       (rs : List ClassificationResult),
      tp ≠ "" → lower tp = lower headers.white →
      lower tp = lower headers.black → rs = [] →
      build_game_summary lower headers gid (some tp) rs = none) ∧
    (∀ (lower : String → String) (headers : GameHeaders) (gid tp : String)
       (rs : List ClassificationResult),
      tp ≠ "" → lower tp = lower headers.white →
      lower tp ≠ lower headers.black → evenPlies rs ≠ [] →
      build_game_summary lower headers gid (some tp) rs =
        some ⟨gid, headers.white, "White",
              (evenPlies rs).map (fun r => r.cpl),
              ((evenPlies rs).map simplifyLabel : List String),
              ((evenPlies rs).filter fun r => r.is_engine_top_choice).length,
              ((evenPlies rs).filter fun r => r.is_engine_top_n_choice).length,
              headers⟩) ∧
    (∀ (lower : String → String) (headers : GameHeaders) (gid tp : String)
       (rs : List ClassificationResult),
      tp ≠ "" → lower tp ≠ lower headers.white →
      lower tp = lower headers.black → oddPlies rs ≠ [] →
      build_game_summary lower headers gid (some tp) rs =
        some ⟨gid, headers.black, "Black",
              (oddPlies rs).map (fun r => r.cpl),
              ((oddPlies rs).map simplifyLabel : List String),
              ((oddPlies rs).filter fun r => r.is_engine_top_choice).length,
              ((oddPlies rs).filter fun r => r.is_engine_top_n_choice).length,
              headers⟩) ∧
    (∀ (lower : String → String) (headers : GameHeaders) (gid tp : String)
       (rs : List ClassificationResult),
      tp ≠ "" → lower tp = lower headers.white →
      lower tp = lower headers.black → rs ≠ [] →
      build_game_summary lower headers gid (some tp) rs =
        some ⟨gid, headers.white, "White",
              rs.map (fun r => r.cpl),
              (rs.map simplifyLabel : List String),
              (rs.filter fun r => r.is_engine_top_choice).length,
              (rs.filter fun r => r.is_engine_top_n_choice).length,
              headers⟩) := by
  refine ⟨fun _ _ _ _ => rfl, fun _ _ _ _ => rfl, ?_, ?_, ?_, ?_, ?_, ?_, ?_⟩
  · intro lower headers gid tp rs htp hw hb
    simp [build_game_summary, htp, hw, hb]
  · intro lower headers gid tp rs htp hw hb hemp
    have h1 : (lower tp == lower headers.white) = true := beq_iff_eq.mpr hw
    have h2 : (lower tp == lower headers.black) = false :=
      beq_eq_false_iff_ne.mpr hb
    simp only [build_game_summary, if_neg htp, h1, h2, Bool.true_and,
      Bool.false_and, Bool.or_false, Bool.false_or, Bool.true_eq_false,
      Bool.false_eq_true, or_false, not_false_iff, if_true, if_false]
    rw [if_neg (show ¬¬True by simp)]
    have hemp' : (List.map Prod.snd
        (List.filter (fun p => decide (p.1 % 2 = 0)) rs.enum)) = [] := hemp
    rw [if_pos hemp']
  · intro lower headers gid tp rs htp hw hb hemp
    have h1 : (lower tp == lower headers.white) = false :=
      beq_eq_false_iff_ne.mpr hw
    have h2 : (lower tp == lower headers.black) = true := beq_iff_eq.mpr hb
    simp only [build_game_summary, if_neg htp, h1, h2, Bool.true_and,
      Bool.false_and, Bool.or_false, Bool.false_or, Bool.true_eq_false,
      Bool.false_eq_true, or_false, not_false_iff, if_true, if_false]
    rw [if_neg (show ¬¬(False ∨ True) by simp)]
    have hemp' : (List.map Prod.snd
        (List.filter (fun p => decide (¬p.1 % 2 = 0)) rs.enum)) = [] := hemp
    rw [if_pos hemp']
  · intro lower headers gid tp rs htp hw hb hemp
    have h1 : (lower tp == lower headers.white) = true := beq_iff_eq.mpr hw
    have h2 : (lower tp == lower headers.black) = true := beq_iff_eq.mpr hb
    subst hemp
    simp only [build_game_summary, if_neg htp, h1, h2, Bool.true_and,
      Bool.false_and, Bool.or_false, Bool.false_or, Bool.true_eq_false,
      Bool.false_eq_true, or_self, not_true_eq_false, if_true, if_false,
      List.enum_nil, List.filter_nil, List.map_nil]
  · intro lower headers gid tp rs htp hw hb hne
    have h1 : (lower tp == lower headers.white) = true := beq_iff_eq.mpr hw
    have h2 : (lower tp == lower headers.black) = false :=
      beq_eq_false_iff_ne.mpr hb
    simp only [build_game_summary, if_neg htp, h1, h2, Bool.true_and,
      Bool.false_and, Bool.or_false, Bool.false_or, Bool.true_eq_false,
      Bool.false_eq_true, or_false, not_false_iff, if_true, if_false]
    rw [if_neg (show ¬¬True by simp)]
    have hne' : (List.map Prod.snd
        (List.filter (fun p => decide (p.1 % 2 = 0)) rs.enum)) ≠ [] := hne
    rw [if_neg hne']
    rfl
  · intro lower headers gid tp rs htp hw hb hne
    have h1 : (lower tp == lower headers.white) = false :=
      beq_eq_false_iff_ne.mpr hw
    have h2 : (lower tp == lower headers.black) = true := beq_iff_eq.mpr hb
    simp only [build_game_summary, if_neg htp, h1, h2, Bool.true_and,
      Bool.false_and, Bool.or_false, Bool.false_or, Bool.true_eq_false,
      Bool.false_eq_true, or_false, not_false_iff, if_true, if_false]
    rw [if_neg (show ¬¬(False ∨ True) by simp)]
    have hne' : (List.map Prod.snd
        (List.filter (fun p => decide (¬p.1 % 2 = 0)) rs.enum)) ≠ [] := hne
    rw [if_neg hne']
    rfl
  · intro lower headers gid tp rs htp hw hb hne
    have h1 : (lower tp == lower headers.white) = true := beq_iff_eq.mpr hw
    have h2 : (lower tp == lower headers.black) = true := beq_iff_eq.mpr hb
    simp only [build_game_summary, if_neg htp, h1, h2, Bool.true_and,
      Bool.false_and, Bool.or_false, Bool.false_or, Bool.true_eq_false,
      Bool.false_eq_true, or_self, not_true_eq_false, if_true, if_false]
    have hall : (List.map Prod.snd (List.filter
        (fun p => decide (p.1 % 2 = 0) || decide (p.1 % 2 ≠ 0)) rs.enum)) =
        rs := enum_parity_filter_all rs
    rw [hall, if_neg hne]

/-- C10, counterexample to the claim as stated: in a one-ply game whose only
ply is White's, targeting the Black player matches the Black header name, yet
no summary is returned (the filtered ply list is empty), against the claim's
"when the target matches one side" reading. -/
theorem c10_counterexample :
    pyLower "Player B" = pyLower (⟨"Player A", "Player B"⟩ : GameHeaders).black ∧
    build_game_summary pyLower ⟨"Player A", "Player B"⟩ "g1" (some "Player B")
      [rBest] = none := by
  constructor
  · rfl
  · decide

/-- Witness for C10, instantiating the lowercasing collaborator with an ASCII
lowercasing: a three-ply game targeted at the White player summarizes exactly
the even-indexed plies; with identically lowercased header names the summary is
attributed to White and takes every ply; and a Black-targeted selection with no
Black plies yields no summary. -/
theorem c10_game_summary_filtering_witness :
    (build_game_summary pyLower ⟨"Player A", "Player B"⟩ "g1" (some "player a")
        [rBest, rMistake, rGood] =
      some ⟨"g1", "Player A", "White",
            (evenPlies [rBest, rMistake, rGood]).map (fun r => r.cpl),
            ((evenPlies [rBest, rMistake, rGood]).map simplifyLabel :
              List String),
            ((evenPlies [rBest, rMistake, rGood]).filter
              fun r => r.is_engine_top_choice).length,
            ((evenPlies [rBest, rMistake, rGood]).filter
              fun r => r.is_engine_top_n_choice).length,
            ⟨"Player A", "Player B"⟩⟩) ∧
    (build_game_summary pyLower ⟨"Alice", "alice"⟩ "g2" (some "ALICE")
        [rBest, rGood] =
      some ⟨"g2", "Alice", "White",
            ([rBest, rGood] : List ClassificationResult).map (fun r => r.cpl),
            (([rBest, rGood] : List ClassificationResult).map simplifyLabel :
              List String),
            (([rBest, rGood] : List ClassificationResult).filter
              fun r => r.is_engine_top_choice).length,
            (([rBest, rGood] : List ClassificationResult).filter
              fun r => r.is_engine_top_n_choice).length,
            ⟨"Alice", "alice"⟩⟩) ∧
    (build_game_summary pyLower ⟨"Player A", "Player B"⟩ "g3" (some "player b")
        [rBest] = none) :=
  ⟨c10_game_summary_filtering.2.2.2.2.2.2.1 pyLower ⟨"Player A", "Player B"⟩
      "g1" "player a" [rBest, rMistake, rGood]
      (by decide) (by decide) (by decide) (by decide),
   c10_game_summary_filtering.2.2.2.2.2.2.2.2 pyLower ⟨"Alice", "alice"⟩
      "g2" "ALICE" [rBest, rGood] (by decide) (by decide) (by decide)
      (by decide),
   c10_game_summary_filtering.2.2.2.2.1 pyLower ⟨"Player A", "Player B"⟩
      "g3" "player b" [rBest] (by decide) (by decide) (by decide) (by decide)⟩

end EvalPro
